import Mathlib

/-!
Verification of the ccusage repository (a Claude Code usage monitor) against
its natural-language specification.  The Python sources are shallowly
embedded: dictionaries become structures with Option-valued fields, JSON
null and absent keys are distinguished where the code distinguishes them,
exceptions become Option results, and wall-clock time is passed explicitly
as an integer count of epoch seconds (epoch milliseconds where the source
uses milliseconds).  ISO-8601 timestamp strings are modelled by their parsed
epoch value: a field value of none stands for a string that fails to parse
(or an absent or null value), since every such case raises in the source and
is handled by the same except branch.
-/

namespace Ccusage

/-- ANSI escape for red, the high-alert color (source constant R). -/
def Rcol : String := "\x1b[0;31m"

/-- ANSI escape for yellow, the caution color (source constant Y). -/
def Ycol : String := "\x1b[0;33m"

/-- ANSI escape for green, the nominal color (source constant G). -/
def Gcol : String := "\x1b[0;32m"

/-- ANSI escape for cyan (source constant C). -/
def Ccol : String := "\x1b[0;36m"

/-- ANSI escape for dim gray (source constant D). -/
def Dcol : String := "\x1b[0;90m"

/-- ANSI reset escape (source constant RST). -/
def Rst : String := "\x1b[0m"

/-- One bucket of a Raw Usage Response, as delivered by the remote endpoint.
The utilization field is required (the normalizer indexes it directly with
bucket["utilization"], so a valid bucket carries it, making the dictionary
nonempty and hence truthy in Python).  The resets_at ISO string is modelled
by its parsed epoch value; none stands for an absent (or null) field. -/
structure RawBucket where
  utilization : Rat
  resets_at : Option Int
deriving DecidableEq, Repr

/-- The optional extra_usage object of a Raw Usage Response, copied verbatim
by the normalizer.  All fields optional, mirroring a JSON object. -/
structure ExtraUsage where
  is_enabled : Option Bool
  used_credits : Option Int
  monthly_limit : Option Int
deriving DecidableEq, Repr

/-- Python truthiness of the extra_usage dictionary: nonempty, i.e. at least
one key present. -/
def extraTruthy (e : ExtraUsage) : Bool :=
  e.is_enabled.isSome || e.used_credits.isSome || e.monthly_limit.isSome

/-- A Raw Usage Response from the /api/oauth/usage endpoint.  Each bucket may
be null or absent (both read back as None via dict.get), modelled as none. -/
structure RawResp where
  five_hour : Option RawBucket
  seven_day : Option RawBucket
  seven_day_sonnet : Option RawBucket
  seven_day_opus : Option RawBucket
  extra_usage : Option ExtraUsage
deriving DecidableEq, Repr

/-- One bucket of a Normalized Usage Snapshot.  The resets_at field is an
Option of an Option: the outer layer records whether the resets_at KEY is
present in the bucket dictionary at all, the inner layer records whether its
VALUE is null (none) or a timestamp (modelled by its parsed epoch value).
This distinction is exactly what the source JSON exhibits: the normalizer
always writes the key, but a cache file read from disk may lack it. -/
structure NormBucket where
  pct : Rat
  resets_at : Option (Option Int)
deriving DecidableEq, Repr

/-- A Normalized Usage Snapshot (the cache file entity).  Field five_h is the
JSON key "5h", seven_d is "7d", seven_d_sonnet is "7d_sonnet", seven_d_opus
is "7d_opus".  Every field is optional because a snapshot read from disk may
be any JSON object, including the empty object.  The updated_at ISO string
is modelled by its parsed epoch seconds; none stands for a missing or
unparsable value, both of which raise in the source and land in the same
except handler. -/
structure Snapshot where
  plan : Option String
  source : Option String
  updated_at : Option Int
  five_h : Option NormBucket
  seven_d : Option NormBucket
  seven_d_sonnet : Option NormBucket
  seven_d_opus : Option NormBucket
  extra_usage : Option ExtraUsage
deriving DecidableEq, Repr

/-- The empty JSON object as a snapshot: every key absent. -/
def emptySnapshot : Snapshot :=
  { plan := none, source := none, updated_at := none, five_h := none,
    seven_d := none, seven_d_sonnet := none, seven_d_opus := none,
    extra_usage := none }

/-- The nested claudeAiOauth section of the credentials file. -/
structure Oauth where
  accessToken : Option String
  expiresAt : Option Int
  rateLimitTier : Option String
  subscriptionType : Option String
deriving DecidableEq, Repr

/-- The oauth section with no keys, the default of creds.get("claudeAiOauth", \x7b\x7d). -/
def emptyOauth : Oauth :=
  { accessToken := none, expiresAt := none, rateLimitTier := none,
    subscriptionType := none }

/-- A parsed credentials file.  Per the external-interface schema it is a
JSON object whose only documented key is the nested oauth section, so the
empty object is the credentials object with claudeAiOauth absent. -/
structure Creds where
  claudeAiOauth : Option Oauth
deriving DecidableEq, Repr

/-- Python falsiness of the get_credentials result: None (file missing or
unparsable) or the empty object (no claudeAiOauth key under the documented
schema).  This models the `not creds` test of the source. -/
def credsFalsy : Option Creds → Bool
  | none => true
  | some c => c.claudeAiOauth.isNone

/-- The oauth section extracted as the source does: creds.get("claudeAiOauth", \x7b\x7d). -/
def oauthOf (c : Creds) : Oauth := c.claudeAiOauth.getD emptyOauth

/-- Python truthiness of an optional string: present and nonempty. -/
def strTruthy : Option String → Bool
  | none => false
  | some s => decide (s ≠ "")

/-- Python `a or b` for an optional string a and a string fallback b. -/
def pyOrS (a : Option String) (b : String) : String :=
  match a with
  | some s => if s = "" then b else s
  | none => b

/-- Python str.removeprefix for the fixed prefix string default_claude_:
drop it when it leads the string, otherwise return the string unchanged. -/
def stripDefaultClaude (s : String) : String :=
  if ("default_claude_").data.isPrefixOf s.data
  then String.mk (s.data.drop ("default_claude_").data.length)
  else s

/-- Embedding of get_plan: return plan info from credentials (rateLimitTier
or subscriptionType, Python or-chains with fallback "unknown"), with the
leading default_claude_ stripped. -/
def get_plan (creds : Option Creds) : String :=
  if credsFalsy creds then "unknown"
  else
    let oauth := oauthOf (creds.getD { claudeAiOauth := none })
    let tier := pyOrS oauth.rateLimitTier (pyOrS oauth.subscriptionType "unknown")
    stripDefaultClaude tier

/-- The outcome of the precondition chain of fetch_usage: which distinct
failure is raised, or the HTTP request that is issued when all checks pass. -/
inductive FetchStep where
  | credsMissing : FetchStep
  | tokenMissing : FetchStep
  | tokenExpired : FetchStep
  | httpRequest : String → FetchStep
deriving DecidableEq, Repr

/-- Embedding of the precondition chain of fetch_usage, up to the point the
HTTP request is issued.  now_ms is the current wall clock in epoch
milliseconds (time.time() * 1000 in the source).  The expiresAt comparison
uses the dict.get default 0 when the key is absent. -/
def fetch_usage_checks (creds : Option Creds) (now_ms : Int) : FetchStep :=
  if credsFalsy creds then .credsMissing
  else
    let oauth := oauthOf (creds.getD { claudeAiOauth := none })
    match oauth.accessToken with
    | none => .tokenMissing
    | some tk =>
      if tk = "" then .tokenMissing
      else if now_ms > oauth.expiresAt.getD 0 then .tokenExpired
      else .httpRequest tk

/-- Normalization of one present raw bucket, as written by build_usage_json:
the pct key receives the utilization value and the resets_at key is ALWAYS
written, its value being bucket.get("resets_at"), i.e. null when the source
bucket has no resets_at. -/
def normBucketOfRaw (b : RawBucket) : NormBucket :=
  { pct := b.utilization, resets_at := some b.resets_at }

/-- Embedding of build_usage_json: transform the API response into the cached
format.  The wall-clock capture instant is passed as now (the source stamps
datetime.now(timezone.utc).isoformat(), modelled by its epoch value).  For
each of the four known buckets, a present (hence truthy, see RawBucket)
bucket is normalized; a null or absent one leaves the key out.  The
extra_usage object is copied verbatim when truthy (nonempty). -/
def build_usage_json (api : RawResp) (plan : String) (now : Int) : Snapshot :=
  { plan := some plan, source := some "api", updated_at := some now,
    five_h := api.five_hour.map normBucketOfRaw,
    seven_d := api.seven_day.map normBucketOfRaw,
    seven_d_sonnet := api.seven_day_sonnet.map normBucketOfRaw,
    seven_d_opus := api.seven_day_opus.map normBucketOfRaw,
    extra_usage := match api.extra_usage with
      | some e => if extraTruthy e then some e else none
      | none => none }

/-- The environment a single invocation of the gated-refresh path runs in:
the parse result of the cache file at entry (none when the file is missing
or not JSON), the outcome of a fetch_usage call should one be made (none
when it raises for any reason: failed precondition, network error, bad
status, parse error), the credentials used by get_plan during a refresh,
and the current wall clock in epoch seconds. -/
structure GateEnv where
  cacheFile : Option Snapshot
  fetchOutcome : Option RawResp
  creds : Option Creds
  now : Int
deriving DecidableEq, Repr

/-- What one invocation of the gated-refresh path did: the snapshot it
returned, whether fetch_usage was invoked, and the snapshot written to the
cache file, if any. -/
structure GateOut where
  usage : Snapshot
  fetchInvoked : Bool
  written : Option Snapshot
deriving DecidableEq, Repr

/-- Embedding of _get_cached_usage: read the cached usage, refreshing from
the API when stale or missing.  The first try block succeeds through the
freshness test only when the cache parsed and its updated_at parsed; the
age is the wall clock minus the parsed updated_at, compared strictly
against max_age.  On the refresh path, a successful fetch normalizes,
writes and returns; a failed fetch falls back to re-reading the cache file
(unchanged, since nothing was written) and returns the empty object when
that also fails. -/
def get_cached_usage (env : GateEnv) (max_age : Int) : GateOut :=
  let fresh : Option Snapshot :=
    match env.cacheFile with
    | some u =>
      match u.updated_at with
      | some t => if env.now - t < max_age then some u else none
      | none => none
    | none => none
  match fresh with
  | some u => { usage := u, fetchInvoked := false, written := none }
  | none =>
    match env.fetchOutcome with
    | some api =>
      let usage := build_usage_json api (get_plan env.creds) env.now
      { usage := usage, fetchInvoked := true, written := some usage }
    | none =>
      { usage := env.cacheFile.getD emptySnapshot, fetchInvoked := true,
        written := none }

/-- Python int() applied to a rational: truncation toward zero, computed as
the truncating integer division of the numerator by the denominator. -/
def pyInt (q : Rat) : Int := Int.tdiv q.num (q.den : Int)

/-- The color choice of the color_pct closure inside cmd_status (the human
status renderer): R at 70 and above, Y at 50 and above, else G. -/
def tier_color_status (p : Int) : String :=
  if p ≥ 70 then Rcol else if p ≥ 50 then Ycol else Gcol

/-- Embedding of the color_pct closure inside cmd_status: truncate the
percentage to an integer, pick the threshold color, render p% and reset. -/
def color_pct_status (pct : Rat) : String :=
  let p := pyInt pct
  tier_color_status p ++ toString p ++ "%" ++ Rst

/-- The color choice of the color_pct closure inside cmd_statusline. -/
def tier_color_statusline (pct : Int) : String :=
  if pct ≥ 70 then Rcol else if pct ≥ 50 then Ycol else Gcol

/-- Embedding of the color_pct closure inside cmd_statusline (integer input). -/
def color_pct_statusline (pct : Int) : String :=
  tier_color_statusline pct ++ toString pct ++ "%" ++ Rst

/-- The color choice of the top-level color_pct in statusline.py. -/
def tier_color_sl_file (pct : Int) : String :=
  if pct ≥ 70 then Rcol else if pct ≥ 50 then Ycol else Gcol

/-- Embedding of the top-level color_pct of statusline.py (integer input). -/
def color_pct_sl_file (pct : Int) : String :=
  tier_color_sl_file pct ++ toString pct ++ "%" ++ Rst

/-- Embedding of fmt_reset as it appears identically in cmd_statusline and in
statusline.py: given the resets_at value (an ISO string modelled by its
parsed epoch value; none for null, empty, or unparsable, all of which yield
the empty result in the source) and the current wall clock, render a
countdown such as 1h44m, or the empty string when the reset lies in the
past or is unavailable. -/
def fmt_reset (iso : Option Int) (now : Int) : String :=
  match iso with
  | none => ""
  | some t =>
    let secs := t - now
    if secs ≤ 0 then ""
    else
      let m := secs / 60
      if m ≥ 60 then toString (m / 60) ++ "h" ++ toString (m % 60) ++ "m"
      else toString m ++ "m"

/-- Round a rational to the nearest hundredth, half to even, returning the
count of hundredths (the floor of one hundred times the value, bumped by
one when the remainder exceeds one half, tie to the even neighbour).  This
models the rounding of the Python fixed-point format with two decimal
places. -/
def round2 (c : Rat) : Int :=
  let t := 100 * c.num
  let n := Int.fdiv t (c.den : Int)
  let r := Int.fmod t (c.den : Int)
  if 2 * r > (c.den : Int) then n + 1
  else if 2 * r < (c.den : Int) then n
  else if n % 2 = 0 then n else n + 1

/-- Render a nonnegative count of hundredths with two decimal places. -/
def fmtHundredths (n : Nat) : String :=
  toString (n / 100) ++ "." ++ (if n % 100 < 10 then "0" else "") ++ toString (n % 100)

/-- Embedding of the Python format specifier .2f on a rational value:
two decimal places, sign in front when negative. -/
def fmtFixed2 (c : Rat) : String :=
  let n := round2 c
  if n < 0 then "-" ++ fmtHundredths (-n).toNat else fmtHundredths n.toNat

/-- The cost token of the status-line renderers: the source writes the cost
with two decimals behind a dollar sign when cost > 0, and the literal $0
otherwise. -/
def cost_fmt_of (cost : Rat) : String :=
  if cost > 0 then "$" ++ fmtFixed2 cost else "$0"

/-- The status-line standard-input payload, flattened: the source reads
cc.get("model", \x7b\x7d).get("display_name", "?") and the analogous chains for
cost and workspace, so for well-typed payloads only the leaf presence
matters.  A malformed or empty standard input parses to the empty object,
i.e. all fields none. -/
structure CCPayload where
  model_display_name : Option String
  cost_total_usd : Option Rat
  current_dir : Option String
deriving DecidableEq, Repr

/-- The payload obtained when standard input is absent or fails to parse. -/
def ccEmpty : CCPayload :=
  { model_display_name := none, cost_total_usd := none, current_dir := none }

/-- Python str.startswith, computed on the character lists. -/
def pyStartsWith (s pre : String) : Bool := pre.data.isPrefixOf s.data

/-- Home-directory abbreviation of the working directory, as in the source:
when pwd starts with the home path, replace that leading run with a tilde. -/
def abbrevHome (home pwd : String) : String :=
  if pyStartsWith pwd home then "~" ++ pwd.drop home.length else pwd

/-- Embedding of the line assembly shared verbatim by cmd_statusline and by
statusline.py main: placeholders for absent payload fields, home-relative
directory, bracketed model, one colored token per present bucket among 5h,
7d and 7d_sonnet, the cost token, the plan, and an optional reset countdown
taken from the 5h bucket only.  Python truthiness of each bucket dictionary
is presence of the key with a nonempty object; under the snapshot schema a
present bucket carries pct, so presence of the key suffices. -/
def render_statusline (cc : CCPayload) (usage : Snapshot) (home : String)
    (now : Int) : String :=
  let model := cc.model_display_name.getD "?"
  let cost := cc.cost_total_usd.getD 0
  let pwd := abbrevHome home (cc.current_dir.getD "?")
  let costFmt := cost_fmt_of cost
  let plan := usage.plan.getD "?"
  let parts0 : List String := [Dcol ++ pwd ++ Rst, "[" ++ Ccol ++ model ++ Rst ++ "]"]
  let parts1 := parts0 ++ (match usage.five_h with
    | some b => ["5h:" ++ color_pct_statusline (pyInt b.pct)]
    | none => [])
  let parts2 := parts1 ++ (match usage.seven_d with
    | some b => ["7d:" ++ color_pct_statusline (pyInt b.pct)]
    | none => [])
  let parts3 := parts2 ++ (match usage.seven_d_sonnet with
    | some b => ["son:" ++ color_pct_statusline (pyInt b.pct)]
    | none => [])
  let parts4 := parts3 ++ ["| " ++ costFmt ++ " | " ++ Dcol ++ plan ++ Rst]
  let reset := fmt_reset ((usage.five_h.bind NormBucket.resets_at).join) now
  let parts5 := if reset = "" then parts4
    else parts4 ++ ["| " ++ Dcol ++ "reset:" ++ reset ++ Rst]
  String.intercalate " " parts5

/-- A concrete Raw Usage Response from the end-to-end example of the spec:
five_hour at 35 percent with a reset time, seven_day at 14 percent with no
resets_at field, seven_day_sonnet null. -/
def apiC5 : RawResp :=
  { five_hour := some { utilization := 35, resets_at := some 3600 },
    seven_day := some { utilization := 14, resets_at := none },
    seven_day_sonnet := none, seven_day_opus := none, extra_usage := none }

/-- Concrete oauth section holding only an access token (no expiry). -/
def oauthTok : Oauth := { emptyOauth with accessToken := some "tok" }

/-- Concrete oauth section holding an access token and expiry 10 ms. -/
def oauthTokExp : Oauth := { oauthTok with expiresAt := some 10 }

/-- Concrete oauth section holding the tier default_claude_max_5x. -/
def oauthTier : Oauth :=
  { emptyOauth with rateLimitTier := some "default_claude_max_5x" }

/-! Theorems settling the claims. -/

/-- Helper: Python int() of an integer cast to a rational is that integer. -/
theorem pyInt_intCast (n : Int) : pyInt (n : Rat) = n := by
  unfold pyInt
  rw [Rat.num_intCast, Rat.den_intCast]
  simp

/-- C1: whenever the cache file holds a readable snapshot whose age
(now minus the parsed updated_at) is strictly below max_age, the gated read
returns the cached snapshot without invoking the fetcher and without
writing; at an age exactly equal to max_age the fetcher is invoked (the
freshness comparison of the source is a strict less-than). -/
theorem c1_freshness_gate (env : GateEnv) (ma : Int) (u : Snapshot) (t : Int)
    (hc : env.cacheFile = some u) (ht : u.updated_at = some t) :
    (env.now - t < ma →
      get_cached_usage env ma = { usage := u, fetchInvoked := false, written := none })
    ∧ (env.now - t = ma → (get_cached_usage env ma).fetchInvoked = true) := by
  constructor
  · intro hage
    simp [get_cached_usage, hc, ht, hage]
  · intro hage
    have hlt : ¬ (env.now - t < ma) := by omega
    simp only [get_cached_usage, hc, ht, if_neg hlt]
    cases env.fetchOutcome <;> simp

/-- C2: when the cache file holds a readable snapshot that is stale (age at
least max_age) and the fetch attempt fails, the gated read returns exactly
that stale snapshot (the fallback re-read of the unchanged file), which is
not the empty object, and nothing is written. -/
theorem c2_stale_fallback (env : GateEnv) (ma : Int) (u : Snapshot) (t : Int)
    (hc : env.cacheFile = some u) (ht : u.updated_at = some t)
    (hage : ma ≤ env.now - t) (hf : env.fetchOutcome = none) :
    get_cached_usage env ma = { usage := u, fetchInvoked := true, written := none }
    ∧ u ≠ emptySnapshot := by
  constructor
  · have hlt : ¬ (env.now - t < ma) := by omega
    simp [get_cached_usage, hc, ht, hf, if_neg hlt]
  · intro h
    rw [h] at ht
    simp [emptySnapshot] at ht

/-- C3: when no readable cache exists and the fetch attempt fails, the gated
read returns the empty snapshot; and in every state it returns a snapshot
drawn from one of the three sources (the empty object, the cache file, or a
fresh normalization of the fetched response) — the function is total, so no
error ever propagates outward. -/
theorem c3_degradation_floor (env : GateEnv) (ma : Int) :
    (env.cacheFile = none → env.fetchOutcome = none →
      get_cached_usage env ma =
        { usage := emptySnapshot, fetchInvoked := true, written := none })
    ∧ ((get_cached_usage env ma).usage = emptySnapshot
       ∨ env.cacheFile = some (get_cached_usage env ma).usage
       ∨ ∃ api, env.fetchOutcome = some api ∧
           (get_cached_usage env ma).usage =
             build_usage_json api (get_plan env.creds) env.now) := by
  constructor
  · intro h1 h2
    simp [get_cached_usage, h1, h2]
  · rcases hc : env.cacheFile with _ | u
    · rcases hf : env.fetchOutcome with _ | api
      · left
        simp [get_cached_usage, hc, hf]
      · right; right
        exact ⟨api, rfl, by simp [get_cached_usage, hc, hf]⟩
    · rcases ht : u.updated_at with _ | t
      · rcases hf : env.fetchOutcome with _ | api
        · right; left
          simp [get_cached_usage, hc, ht, hf]
        · right; right
          exact ⟨api, rfl, by simp [get_cached_usage, hc, ht, hf]⟩
      · by_cases hage : env.now - t < ma
        · right; left
          simp [get_cached_usage, hc, ht, hage]
        · rcases hf : env.fetchOutcome with _ | api
          · right; left
            simp [get_cached_usage, hc, ht, hage, hf]
          · right; right
            exact ⟨api, rfl, by simp [get_cached_usage, hc, ht, hage, hf]⟩

/-- C4: for every valid Raw Usage Response, the normalized snapshot carries a
bucket key exactly when the corresponding remote bucket is present
(non-null): the key set is preserved, with no extra and no dropped bucket
keys. -/
theorem c4_bucket_keys (api : RawResp) (plan : String) (now : Int) :
    ((build_usage_json api plan now).five_h.isSome = api.five_hour.isSome)
    ∧ ((build_usage_json api plan now).seven_d.isSome = api.seven_day.isSome)
    ∧ ((build_usage_json api plan now).seven_d_sonnet.isSome
        = api.seven_day_sonnet.isSome)
    ∧ ((build_usage_json api plan now).seven_d_opus.isSome
        = api.seven_day_opus.isSome) := by
  refine ⟨?_, ?_, ?_, ?_⟩ <;> simp [build_usage_json]

/-- C5 counterexample: for the example response whose seven_day bucket has no
resets_at field, the normalized 7d entry is pct 14 with the resets_at KEY
PRESENT holding a null value (resets_at = some none in the embedding), and
it is NOT the entry with the resets_at key omitted (resets_at = none).  The
claim that the key is absent altogether is therefore false on the code. -/
theorem c5_counterexample :
    (build_usage_json apiC5 "max_5x" 0).seven_d
      = some { pct := 14, resets_at := some none }
    ∧ ¬ ((build_usage_json apiC5 "max_5x" 0).seven_d
      = some { pct := 14, resets_at := none }) := by
  constructor
  · rfl
  · decide

/-- C5 amended: for a present bucket with no resets_at field in the raw
response, the corresponding normalized entry has the pct field set to the
utilization and the resets_at key present with a null value (the normalizer
always writes the resets_at key, using the dict.get result, null when the
source field is absent). -/
theorem c5_resets_at_null (api : RawResp) (plan : String) (now : Int)
    (b : RawBucket) (h7 : api.seven_day = some b) (hr : b.resets_at = none) :
    (build_usage_json api plan now).seven_d
      = some { pct := b.utilization, resets_at := some none } := by
  simp [build_usage_json, h7, normBucketOfRaw, hr]

/-- C5 witness: the amended theorem applied to the concrete example. -/
theorem c5_witness :
    apiC5.seven_day = some { utilization := 14, resets_at := none }
    ∧ (build_usage_json apiC5 "max_5x" 7 ).seven_d
        = some { pct := 14, resets_at := some none } :=
  ⟨rfl, c5_resets_at_null apiC5 "max_5x" 7
    { utilization := 14, resets_at := none } rfl rfl⟩

/-- C1 witness: the freshness theorem applied to a concrete environment with
a snapshot 100 seconds old, first against max_age 300 (fresh, served from
cache) and then with the clock advanced so the age is exactly 300 (stale,
fetch attempted). -/
theorem c1_witness :
    get_cached_usage
      { cacheFile := some ({ emptySnapshot with updated_at := some 100 }),
        fetchOutcome := none, creds := none, now := 200 } 300
      = { usage := ({ emptySnapshot with updated_at := some 100 }),
          fetchInvoked := false, written := none }
    ∧ (get_cached_usage
      { cacheFile := some ({ emptySnapshot with updated_at := some 100 }),
        fetchOutcome := none, creds := none, now := 400 } 300).fetchInvoked
        = true :=
  ⟨(c1_freshness_gate _ 300 _ 100 rfl rfl).1 (by decide),
   (c1_freshness_gate _ 300 _ 100 rfl rfl).2 (by decide)⟩

/-- C2 witness: the stale-fallback theorem applied to a concrete environment
with a snapshot 400 seconds old, max_age 300, and a failing fetch. -/
theorem c2_witness :
    get_cached_usage
      { cacheFile := some ({ emptySnapshot with updated_at := some 100 }),
        fetchOutcome := none, creds := none, now := 500 } 300
      = { usage := ({ emptySnapshot with updated_at := some 100 }),
          fetchInvoked := true, written := none }
    ∧ ({ emptySnapshot with updated_at := some (100 : Int) } : Snapshot)
        ≠ emptySnapshot :=
  c2_stale_fallback _ 300 _ 100 rfl rfl (by decide) rfl

/-- C3 witness: the degradation-floor theorem applied to a concrete
environment with no cache and a failing fetch. -/
theorem c3_witness :
    get_cached_usage
      { cacheFile := none, fetchOutcome := none, creds := none, now := 7 } 300
      = { usage := emptySnapshot, fetchInvoked := true, written := none } :=
  (c3_degradation_floor
    { cacheFile := none, fetchOutcome := none, creds := none, now := 7 } 300).1
    rfl rfl

/-- C6: the three color functions (human status renderer, statusline
subcommand, statusline.py file) agree on every integer percentage, and the
shared tier choice assigns red exactly at 70 and above, yellow exactly
between 50 and 69, and green exactly below 50 (boundaries inclusive at 70
and 50). -/
theorem c6_color_thresholds (p : Int) :
    color_pct_status (p : Rat) = color_pct_statusline p
    ∧ color_pct_sl_file p = color_pct_statusline p
    ∧ (tier_color_status p = tier_color_statusline p
       ∧ tier_color_sl_file p = tier_color_statusline p)
    ∧ (tier_color_statusline p = Rcol ↔ 70 ≤ p)
    ∧ (tier_color_statusline p = Ycol ↔ 50 ≤ p ∧ p < 70)
    ∧ (tier_color_statusline p = Gcol ↔ p < 50) := by
  have hRY : Rcol ≠ Ycol := by decide
  have hRG : Rcol ≠ Gcol := by decide
  have hYG : Ycol ≠ Gcol := by decide
  refine ⟨?_, rfl, ⟨rfl, rfl⟩, ?_, ?_, ?_⟩
  · unfold color_pct_status color_pct_statusline
    rw [pyInt_intCast]
    rfl
  · unfold tier_color_statusline
    split_ifs with h1 h2
    · simp only [true_iff, iff_true]
      omega
    · constructor
      · intro h
        exact absurd h.symm hRY
      · intro h
        omega
    · constructor
      · intro h
        exact absurd h.symm hRG
      · intro h
        omega
  · unfold tier_color_statusline
    split_ifs with h1 h2
    · constructor
      · intro h
        exact absurd h hRY
      · intro h
        omega
    · simp only [true_iff, iff_true]
      omega
    · constructor
      · intro h
        exact absurd h.symm hYG
      · intro h
        omega
  · unfold tier_color_statusline
    split_ifs with h1 h2
    · constructor
      · intro h
        exact absurd h hRG
      · intro h
        omega
    · constructor
      · intro h
        exact absurd h hYG
      · intro h
        omega
    · simp only [true_iff, iff_true]
      omega

/-- C6 witness: the threshold theorem applied at the boundary percentages
70, 50 and 49. -/
theorem c6_witness :
    tier_color_statusline 70 = Rcol
    ∧ tier_color_statusline 50 = Ycol
    ∧ tier_color_statusline 49 = Gcol :=
  ⟨(c6_color_thresholds 70).2.2.2.1.mpr (by decide),
   (c6_color_thresholds 50).2.2.2.2.1.mpr (by decide),
   (c6_color_thresholds 49).2.2.2.2.2.mpr (by decide)⟩

/-- C7: the plan lookup returns unknown when credentials are missing (or
falsy), takes rateLimitTier when that key holds a nonempty string, falls
back to subscriptionType when rateLimitTier is absent, always stripping a
leading default_claude_ run; in particular default_claude_max_5x displays
as max_5x. -/
theorem c7_plan :
    (∀ creds, credsFalsy creds = true → get_plan creds = "unknown")
    ∧ (∀ o : Oauth, ∀ s : String, o.rateLimitTier = some s → s ≠ "" →
        get_plan (some { claudeAiOauth := some o }) = stripDefaultClaude s)
    ∧ (∀ o : Oauth, ∀ s : String, o.rateLimitTier = none →
        o.subscriptionType = some s → s ≠ "" →
        get_plan (some { claudeAiOauth := some o }) = stripDefaultClaude s)
    ∧ (∀ o : Oauth, o.rateLimitTier = some "default_claude_max_5x" →
        get_plan (some { claudeAiOauth := some o }) = "max_5x") := by
  refine ⟨?_, ?_, ?_, ?_⟩
  · intro creds h
    simp [get_plan, h]
  · intro o s hs hne
    simp [get_plan, credsFalsy, oauthOf, pyOrS, hs, hne]
  · intro o s hr hs hne
    simp [get_plan, credsFalsy, oauthOf, pyOrS, hr, hs, hne]
  · intro o hs
    have h1 : get_plan (some { claudeAiOauth := some o })
        = stripDefaultClaude "default_claude_max_5x" := by
      simp [get_plan, credsFalsy, oauthOf, pyOrS, hs]
    rw [h1]
    decide

/-- C7 witness: the plan theorem applied to concrete credentials carrying
the tier default_claude_max_5x. -/
theorem c7_witness :
    get_plan (some { claudeAiOauth := some oauthTier }) = "max_5x" :=
  c7_plan.2.2.2 oauthTier rfl

/-- C8: the fetcher precondition chain checks in a fixed order with distinct
failures: falsy credentials fail first as credentials-missing; otherwise an
absent (or empty) access token fails as token-missing; otherwise a token
whose expiry (defaulted to 0 when absent) lies strictly before the current
millisecond clock fails as token-expired; and only when all three checks
pass is the HTTP request issued, carrying the token. -/
theorem c8_fetch_order (creds : Option Creds) (o : Oauth) (now_ms : Int) :
    (credsFalsy creds = true →
      fetch_usage_checks creds now_ms = FetchStep.credsMissing)
    ∧ (strTruthy o.accessToken = false →
      fetch_usage_checks (some { claudeAiOauth := some o }) now_ms
        = FetchStep.tokenMissing)
    ∧ (∀ tk : String, o.accessToken = some tk → tk ≠ "" →
        now_ms > o.expiresAt.getD 0 →
        fetch_usage_checks (some { claudeAiOauth := some o }) now_ms
          = FetchStep.tokenExpired)
    ∧ (∀ tk : String, o.accessToken = some tk → tk ≠ "" →
        ¬ now_ms > o.expiresAt.getD 0 →
        fetch_usage_checks (some { claudeAiOauth := some o }) now_ms
          = FetchStep.httpRequest tk) := by
  refine ⟨?_, ?_, ?_, ?_⟩
  · intro h
    simp [fetch_usage_checks, h]
  · intro h
    rcases htk : o.accessToken with _ | tk
    · simp [fetch_usage_checks, credsFalsy, oauthOf, htk]
    · rw [htk] at h
      simp only [strTruthy, decide_eq_false_iff_not, not_not] at h
      simp [fetch_usage_checks, credsFalsy, oauthOf, htk, h]
  · intro tk htk hne hexp
    simp [fetch_usage_checks, credsFalsy, oauthOf, htk, hne, hexp]
  · intro tk htk hne hexp
    simp [fetch_usage_checks, credsFalsy, oauthOf, htk, hne, hexp]

/-- C8 witness: the precondition-chain theorem applied to four concrete
credential states, one per outcome. -/
theorem c8_witness :
    fetch_usage_checks none 0 = FetchStep.credsMissing
    ∧ fetch_usage_checks (some { claudeAiOauth := some emptyOauth }) 0
        = FetchStep.tokenMissing
    ∧ fetch_usage_checks (some { claudeAiOauth := some oauthTok }) 5
        = FetchStep.tokenExpired
    ∧ fetch_usage_checks (some { claudeAiOauth := some oauthTokExp }) 5
        = FetchStep.httpRequest "tok" :=
  ⟨(c8_fetch_order none emptyOauth 0).1 rfl,
   (c8_fetch_order (some { claudeAiOauth := some emptyOauth }) emptyOauth 0).2.1
     rfl,
   (c8_fetch_order (some { claudeAiOauth := some oauthTok }) oauthTok 5).2.2.1
     "tok" rfl (by decide) (by decide),
   (c8_fetch_order (some { claudeAiOauth := some oauthTokExp }) oauthTokExp
     5).2.2.2 "tok" rfl (by decide) (by decide)⟩

/-- C9 counterexample: for a payload carrying the negative cost -1, the
source renders the cost token as the literal $0 (the test is cost greater
than 0), not as the dollar amount to two decimals that the claim requires
for every present nonzero cost. -/
theorem c9_counterexample :
    cost_fmt_of (-1) = "$0"
    ∧ "$" ++ fmtFixed2 (-1) = "$-1.00"
    ∧ cost_fmt_of (-1) ≠ "$" ++ fmtFixed2 (-1) := by
  refine ⟨?_, ?_, ?_⟩ <;> decide

/-- C9 amended: the status-line renderer is total and substitutes
placeholders: an absent or malformed payload (the empty object) renders
with a question mark for the model display name and for the working
directory and with cost 0; and the cost token is the literal $0 whenever
the cost is absent, zero, or negative (the source tests cost greater than
0), and the dollar amount to two decimals exactly when the cost is
positive. -/
theorem c9_statusline_defaults (home : String) (now : Int) (c : Rat)
    (hh : pyStartsWith "?" home = false) :
    render_statusline ccEmpty emptySnapshot home now =
      "\x1b[0;90m?\x1b[0m [\x1b[0;36m?\x1b[0m] | $0 | \x1b[0;90m?\x1b[0m"
    ∧ (0 < c → cost_fmt_of c = "$" ++ fmtFixed2 c)
    ∧ (c ≤ 0 → cost_fmt_of c = "$0") := by
  refine ⟨?_, ?_, ?_⟩
  · simp only [render_statusline, ccEmpty, emptySnapshot, abbrevHome,
      Option.getD_none, hh, Bool.false_eq_true, if_false, fmt_reset]
    rfl
  · intro hc
    simp [cost_fmt_of, hc]
  · intro hc
    simp [cost_fmt_of, not_lt.mpr hc]

/-- C9 witness: the amended theorem applied at a concrete home directory and
the concrete positive cost one half, which formats as fifty cents. -/
theorem c9_witness :
    pyStartsWith "?" "/home/u" = false
    ∧ render_statusline ccEmpty emptySnapshot "/home/u" 0 =
        "\x1b[0;90m?\x1b[0m [\x1b[0;36m?\x1b[0m] | $0 | \x1b[0;90m?\x1b[0m"
    ∧ cost_fmt_of (Rat.divInt 1 2) = "$" ++ fmtFixed2 (Rat.divInt 1 2) :=
  ⟨by decide,
   (c9_statusline_defaults "/home/u" 0 (Rat.divInt 1 2) (by decide)).1,
   (c9_statusline_defaults "/home/u" 0 (Rat.divInt 1 2) (by decide)).2.1 (by decide)⟩

/-- C10: a credentials object holding an access token but no expiresAt key
fails the expiry check (the dict.get default is 0 and any positive clock
exceeds it), producing the token-expired failure rather than a successful
request or the token-missing failure: an absent expiry is never a
non-expiring token. -/
theorem c10_missing_expiry (o : Oauth) (now_ms : Int) (tk : String)
    (htk : o.accessToken = some tk) (hne : tk ≠ "") (hexp : o.expiresAt = none)
    (hpos : 0 < now_ms) :
    fetch_usage_checks (some { claudeAiOauth := some o }) now_ms
      = FetchStep.tokenExpired := by
  simp [fetch_usage_checks, credsFalsy, oauthOf, htk, hne, hexp, hpos]

/-- C10 witness: the missing-expiry theorem applied to concrete credentials
with a token and no expiry at millisecond clock 7. -/
theorem c10_witness :
    fetch_usage_checks (some { claudeAiOauth := some oauthTok }) 7
      = FetchStep.tokenExpired :=
  c10_missing_expiry oauthTok 7 "tok" rfl (by decide) rfl (by decide)

end Ccusage
